import Mathlib

/-!
Verification of the keyboard-metadata extraction engine of `qmk_compiler`
(file `update_kb_redis.py`) against its natural-language specification.

The Python code is shallowly embedded: strings are Lean `String`s (backed by
`List Char`), Python `dict`s become insertion-ordered association lists,
fallible Python code (statements that can raise `ValueError` / `KeyError` /
`AttributeError`) returns `Option`, and the handful of regular expressions
used by the code are embedded as deterministic scanners that implement those
specific patterns (each is backtracking-free for its pattern, see the doc
comments).  File access (`exists` + `unicode_lines`) is modelled by an
explicit file-system map `FS : String → Option String`.
-/

namespace Qmk

/-! ## Python string primitives (over `List Char`) -/

/-- Python `str.strip` whitespace class (space, tab, newline, CR, VT, FF). -/
def pyWs (c : Char) : Bool :=
  c = ' ' || c = '\t' || c = '\n' || c = '\r' || c = '\x0b' || c = '\x0c'

/-- Left strip. -/
def lstripL (l : List Char) : List Char := l.dropWhile pyWs

/-- Right strip. -/
def rstripL (l : List Char) : List Char := (l.reverse.dropWhile pyWs).reverse

/-- Python `str.strip()`. -/
def stripL (l : List Char) : List Char := rstripL (lstripL l)

/-- Split on every non-overlapping leftmost occurrence of the separator
`c0 :: sep` (Python `str.split(sep)` for a non-empty separator).
`acc` holds the current chunk reversed.  The recursion is structural on a
fuel argument so that the definition reduces inside the kernel; every step
consumes at least one character, so fuel `l.length + 1` (as supplied by
`splitSub`) is never exhausted and the fallback branch is unreachable. -/
def splitAux (c0 : Char) (sep : List Char) :
    Nat → List Char → List Char → List (List Char)
  | 0, acc, l => [acc.reverse ++ l]
  | _ + 1, acc, [] => [acc.reverse]
  | fuel + 1, acc, c :: cs =>
    if (c0 :: sep).isPrefixOf (c :: cs) then
      acc.reverse :: splitAux c0 sep fuel [] (cs.drop sep.length)
    else
      splitAux c0 sep fuel (c :: acc) cs

/-- Python `str.split(sep)` over char lists; empty separator returns the
whole list unsplit (Python raises there; never exercised). -/
def splitSub (l sep : List Char) : List (List Char) :=
  match sep with
  | [] => [l]
  | c0 :: s => splitAux c0 s (l.length + 1) [] l

/-- Python whitespace split `str.split()`: split on whitespace runs,
discarding empty chunks. -/
def splitWsAux (acc : List Char) : List Char → List (List Char)
  | [] => if acc.isEmpty then [] else [acc.reverse]
  | c :: cs =>
    if pyWs c then
      if acc.isEmpty then splitWsAux [] cs else acc.reverse :: splitWsAux [] cs
    else splitWsAux (c :: acc) cs

/-! ## Python string API (over `String`) -/

/-- Python `str.strip()`. -/
def pyStrip (s : String) : String := ⟨stripL s.data⟩

/-- Python `s.split(sep)` (all occurrences, non-empty separator). -/
def pySplit (s sep : String) : List String :=
  (splitSub s.data sep.data).map String.mk

/-- Python `sub in s` substring containment. -/
def pyContains (s sub : String) : Bool :=
  sub.data.isEmpty || (pySplit s sub).length != 1

/-- Python `s[:s.index(sub)]`: the text before the first occurrence of
`sub` (the code only evaluates this under a containment guard). -/
def pyTakeBefore (s sub : String) : String := (pySplit s sub).headD ""

/-- Python `s.split()` (whitespace split). -/
def pySplitWs (s : String) : List String := (splitWsAux [] s.data).map String.mk

/-- Python `sep.join(xs)`. -/
def pyJoin (sep : String) (xs : List String) : String :=
  ⟨List.intercalate sep.data (xs.map String.data)⟩

/-- Python `s.split(sep, 1)`. -/
def pySplit1 (s sep : String) : List String :=
  match splitSub s.data sep.data with
  | [] => []
  | [x] => [String.mk x]
  | x :: rest => [String.mk x, ⟨List.intercalate sep.data rest⟩]

/-- Python `s.split(sep, n)`. -/
def pySplitN (s sep : String) (n : Nat) : List String :=
  let parts := splitSub s.data sep.data
  if parts.length ≤ n + 1 then parts.map String.mk
  else (parts.take n).map String.mk ++
    [⟨List.intercalate sep.data (parts.drop n)⟩]

/-- Python `s.rsplit(sep, 1)` for the single-character separators the code
uses (single-character separators have no overlapping occurrences, so the
last leftmost occurrence is the last occurrence). -/
def pyRsplit1 (s sep : String) : List String :=
  match splitSub s.data sep.data with
  | [] => []
  | [x] => [String.mk x]
  | parts => [⟨List.intercalate sep.data parts.dropLast⟩,
              String.mk (parts.getLastD [])]

/-- Python `s.partition(sep)`, keeping only the before/after pieces the code
destructures (`before, _, after`); a missing separator yields `(s, "")`. -/
def pyPartition (s sep : String) : String × String :=
  match pySplit1 s sep with
  | [x, y] => (x, y)
  | _ => (s, "")

/-- Python `s.replace(old, new)`.  For an empty `old`, Python inserts `new`
at every character boundary. -/
def pyReplace (s old new : String) : String :=
  if old.data.isEmpty then
    ⟨new.data ++ s.data.flatMap (fun c => [c] ++ new.data)⟩
  else
    ⟨List.intercalate new.data (splitSub s.data old.data)⟩

/-- Python `s.isdigit()` (ASCII digits). -/
def pyIsdigit (s : String) : Bool := !s.data.isEmpty && s.data.all Char.isDigit

/-- Python `int(s)` for strings of ASCII digits (the only use site guards
with `isdigit`). -/
def pyToNat (s : String) : Nat :=
  s.data.foldl (fun n c => 10 * n + (c.toNat - '0'.toNat)) 0

/-- Python `s.upper()` (ASCII). -/
def pyUpper (s : String) : String := ⟨s.data.map Char.toUpper⟩

/-- Python `s.lower()` (ASCII). -/
def pyLower (s : String) : String := ⟨s.data.map Char.toLower⟩

/-- Python `s.startswith(p)`. -/
def pyStartswith (s p : String) : Bool := p.data.isPrefixOf s.data

/-! ## Python `dict` as an insertion-ordered association list -/

/-- Python `dict`: an association list in insertion order.  `dinsert` on an
existing key updates it in place; on a fresh key it appends. -/
abbrev Dict (κ α : Type) := List (κ × α)

/-- Python `d[k]` lookup (`None`-safe form `d.get(k)`). -/
def dget? {κ α : Type} [DecidableEq κ] (d : Dict κ α) (k : κ) : Option α :=
  match d with
  | [] => none
  | p :: rest => if p.1 = k then some p.2 else dget? rest k

/-- Python `k in d`. -/
def dmem {κ α : Type} [DecidableEq κ] (d : Dict κ α) (k : κ) : Bool :=
  (dget? d k).isSome

/-- Python `d[k] = v`. -/
def dinsert {κ α : Type} [DecidableEq κ] (d : Dict κ α) (k : κ) (v : α) :
    Dict κ α :=
  if dmem d k then d.map (fun p => if p.1 = k then (k, v) else p)
  else d ++ [(k, v)]

/-- Python `del d[k]`. -/
def ddel {κ α : Type} [DecidableEq κ] (d : Dict κ α) (k : κ) : Dict κ α :=
  d.filter (fun p => !(p.1 = k : Bool))

/-- The file system seen by the code: path → file contents (if the file
exists).  `exists(path)` is `(fs path).isSome`; `unicode_lines` is
`split("\n")` of the contents. -/
abbrev FS := String → Option String

/-- Model of `unicode_lines(filename)` on an existing file. -/
def unicodeLines (text : String) : List String := pySplit text "\n"

/-! ## `parse_config_h_file` (update_kb_redis.py lines 131-169)

Values stored in the config dict are Python `True` (flag define),
Python `False` (explicit-undef tombstone) or a string. -/

inductive CVal : Type where
  | tru : CVal
  | fls : CVal
  | str : String → CVal
deriving DecidableEq

/-- Per-line tokenisation of `parse_config_h_file`: strip, cut a `//`
comment, strip again, then whitespace-split (lines 141-149). -/
def configLineTokens (line0 : String) : List String :=
  let line := pyStrip line0
  let line := if pyContains line "//" then pyStrip (pyTakeBefore line "//") else line
  pySplitWs line

/-- Body of the per-line loop of `parse_config_h_file` (lines 140-167).
`log_error` calls only append to the error log and leave the dict alone, so
they are not represented here. -/
def processConfigLine (config_h : Dict String CVal) (line0 : String) :
    Dict String CVal :=
  match configLineTokens line0 with
  | [] => config_h
  | t0 :: rest =>
    if t0 = "#define" then
      match rest with
      | [] => config_h
      | [k] => dinsert config_h k CVal.tru
      | k :: vs => dinsert config_h k (CVal.str (pyJoin " " vs))
    else if t0 = "#undef" then
      match rest with
      | [k] =>
        if dmem config_h k then
          if dget? config_h k = some CVal.tru then ddel config_h k
          else dinsert config_h k CVal.fls
        else config_h
      | _ => config_h
    else config_h

/-- `parse_config_h_file` on the lines of an existing file. -/
def parse_config_h_lines (lines : List String) (config_h : Dict String CVal) :
    Dict String CVal :=
  lines.foldl processConfigLine config_h

/-- `parse_config_h_file(file, config_h)`: a missing file returns the
passed-in dict unchanged (lines 134-137). -/
def parse_config_h_file (fs : FS) (file : String) (config_h : Dict String CVal) :
    Dict String CVal :=
  match fs file with
  | none => config_h
  | some text => parse_config_h_lines (unicodeLines text) config_h

/-! ## `parse_rules_mk_file` / `parse_rules_mk` (lines 172-214) -/

/-- Comment-trimming of a rules.mk line (lines 194-197):
`line.strip().split('#')[0]`, then a (dead) second `'#' in line` trim. -/
def rulesLineTrim (line0 : String) : String :=
  let line := (pySplit (pyStrip line0) "#").headD ""
  if pyContains line "#" then pyStrip (pyTakeBefore line "#") else line

/-- Body of the per-line loop of `parse_rules_mk_file` (lines 193-212).
`none` models the `ValueError` Python raises when a line contains `+=`
more than once (`key, value = line.split('+=')`). -/
def processRulesLine (rules_mk : Dict String String) (line0 : String) :
    Option (Dict String String) :=
  let line := rulesLineTrim line0
  if line = "" then some rules_mk
  else if pyContains line "=" then
    if pyContains line "+=" then
      match pySplit line "+=" with
      | [key, value] =>
        if !dmem rules_mk (pyStrip key) then
          some (dinsert rules_mk (pyStrip key) (pyStrip value))
        else
          some (dinsert rules_mk (pyStrip key)
            (((dget? rules_mk (pyStrip key)).getD "") ++ " " ++ pyStrip value))
      | _ => none
    else
      match pySplit1 line "=" with
      | [key, value] => some (dinsert rules_mk (pyStrip key) (pyStrip value))
      | _ => some rules_mk
  else some rules_mk

/-- `parse_rules_mk_file` on the lines of an existing file. -/
def parse_rules_mk_lines (lines : List String) (rules_mk : Dict String String) :
    Option (Dict String String) :=
  lines.foldlM processRulesLine rules_mk

/-- `parse_rules_mk_file(file, rules_mk)` (lines 184-214): a missing file
returns the passed-in dict unchanged. -/
def parse_rules_mk_file (fs : FS) (file : String)
    (rules_mk : Dict String String) : Option (Dict String String) :=
  match fs file with
  | none => some rules_mk
  | some text => parse_rules_mk_lines (unicodeLines text) rules_mk

/-- Path of a keyboard's rules.mk (`'qmk_firmware/keyboards/%s/rules.mk'`). -/
def rulesMkPath (keyboard : String) : String :=
  "qmk_firmware/keyboards/" ++ keyboard ++ "/rules.mk"

/-- Path used for the DEFAULT_FOLDER re-parse
(`'qmk_firmware/keyboards/%s/%s/rules.mk' % (keyboard, rules_mk['DEFAULT_FOLDER'])`
where `keyboard` has just been reassigned to `rules_mk['DEFAULT_FOLDER']`). -/
def rulesMkDefaultFolderPath (df : String) : String :=
  "qmk_firmware/keyboards/" ++ df ++ "/" ++ df ++ "/rules.mk"

/-- `parse_rules_mk(keyboard)` (lines 172-181): parse the keyboard's own
rules.mk, then, when a DEFAULT_FOLDER key is present, re-parse the default
folder's rules.mk file on top of the very same dict. -/
def parse_rules_mk (fs : FS) (keyboard : String) :
    Option (Dict String String) := do
  let rules_mk ← parse_rules_mk_file fs (rulesMkPath keyboard) []
  if dmem rules_mk "DEFAULT_FOLDER" then
    let df := (dget? rules_mk "DEFAULT_FOLDER").getD ""
    parse_rules_mk_file fs (rulesMkDefaultFolderPath df) rules_mk
  else
    pure rules_mk

/-! ## The regular expressions of update_kb_redis.py (lines 22-26)

Each pattern is embedded as a matcher `List Char → Option (match, rest)`
trying the pattern anchored at the head, and `scanAll` reproduces
`re.findall`: scan left to right, emit non-overlapping leftmost matches,
resume after each match.  Every pattern below either contains no ambiguity
(each starred class excludes the character that must follow it) or — for
`[^[]*\)` in `layers_re` — backtracks to the last `)` in the span, which is
implemented directly. -/

/-- Scan `l`, emitting matcher results left to right, resuming after each
match (fuel is the string length; every match consumes at least one
character, so the fuel is never exhausted). -/
def scanAllAux (m : List Char → Option (List Char × List Char)) :
    Nat → List Char → List (List Char)
  | 0, _ => []
  | fuel + 1, l =>
    match m l with
    | some (mt, rest) => mt :: scanAllAux m fuel rest
    | none =>
      match l with
      | [] => []
      | _ :: cs => scanAllAux m fuel cs

/-- Model of `re.findall` for the matchers below. -/
def scanAll (m : List Char → Option (List Char × List Char)) (l : List Char) :
    List (List Char) :=
  scanAllAux m (l.length + 1) l

/-- Matcher for `enum_re = enum[^{]*{[^}]*` anchored at the head:
literal `enum`, everything up to the first `{`, the `{`, then everything up
to the first `}` (or the end). -/
def enumMatch (l : List Char) : Option (List Char × List Char) :=
  if "enum".data.isPrefixOf l then
    let l1 := l.drop 4
    let pre := l1.takeWhile (fun c => c != '\x7b')
    match l1.drop pre.length with
    | '\x7b' :: l2 =>
      let body := l2.takeWhile (fun c => c != '\x7d')
      some ("enum".data ++ pre ++ '\x7b' :: body, l2.drop body.length)
    | _ => none
  else none

/-- Matcher for `keymap_re = constuint[0-9]*_t[PROGMEM]*keymaps[^;]*`
anchored at the head. -/
def keymapReMatch (l : List Char) : Option (List Char × List Char) :=
  if "constuint".data.isPrefixOf l then
    let l1 := l.drop 9
    let digits := l1.takeWhile Char.isDigit
    let l2 := l1.drop digits.length
    if "_t".data.isPrefixOf l2 then
      let l3 := l2.drop 2
      let prog := l3.takeWhile (fun c =>
        c = 'P' || c = 'R' || c = 'O' || c = 'G' || c = 'E' || c = 'M')
      let l4 := l3.drop prog.length
      if "keymaps".data.isPrefixOf l4 then
        let l5 := l4.drop 7
        let body := l5.takeWhile (fun c => c != ';')
        some ("constuint".data ++ digits ++ "_t".data ++ prog ++
          "keymaps".data ++ body, l5.drop body.length)
      else none
    else none
  else none

/-- Index of the last occurrence of `c` in `l`. -/
def lastIdx (c : Char) : List Char → Option Nat
  | [] => none
  | x :: xs =>
    match lastIdx c xs with
    | some i => some (i + 1)
    | none => if x = c then some 0 else none

/-- Matcher for `layers_re = \[[^\]]*]=[0-9A-Z_]*\([^[]*\)` anchored at the
head.  The final `[^[]*\)` is greedy with backtracking: it reaches to the
last `)` before the next `[` (or the end of the string). -/
def layersMatch (l : List Char) : Option (List Char × List Char) :=
  match l with
  | '[' :: l1 =>
    let idx := l1.takeWhile (fun c => c != ']')
    match l1.drop idx.length with
    | ']' :: '=' :: l2 =>
      let name := l2.takeWhile (fun c => c.isDigit || c.isUpper || c = '_')
      match l2.drop name.length with
      | '(' :: l3 =>
        let span := l3.takeWhile (fun c => c != '[')
        match lastIdx ')' span with
        | some i =>
          some ('[' :: idx ++ ']' :: '=' :: name ++ '(' :: span.take (i + 1),
            l3.drop (i + 1))
        | none => none
      | _ => none
    | _ => none
  | _ => none

/-- Matcher for `layout_macro_re = ]=(LAYOUT[0-9a-z_]*)\(` anchored at the
head; returns the captured group (as `re.findall` does for one group). -/
def layoutMacroMatch (l : List Char) : Option (List Char × List Char) :=
  match l with
  | ']' :: '=' :: l1 =>
    if "LAYOUT".data.isPrefixOf l1 then
      let l2 := l1.drop 6
      let run := l2.takeWhile (fun c => c.isDigit || c.isLower || c = '_')
      match l2.drop run.length with
      | '(' :: l3 => some ("LAYOUT".data ++ run, l3)
      | _ => none
    else none
  | _ => none

/-- Matcher for `keymap_macro_re = ]=(KEYMAP[0-9a-z_]*)\(` anchored at the
head; returns the captured group. -/
def keymapMacroMatch (l : List Char) : Option (List Char × List Char) :=
  match l with
  | ']' :: '=' :: l1 =>
    if "KEYMAP".data.isPrefixOf l1 then
      let l2 := l1.drop 6
      let run := l2.takeWhile (fun c => c.isDigit || c.isLower || c = '_')
      match l2.drop run.length with
      | '(' :: l3 => some ("KEYMAP".data ++ run, l3)
      | _ => none
    else none
  | _ => none

/-! ## `populate_enums` / `extract_layouts` / `extract_keymap`
(lines 236-321).  `preprocess_source` shells out to `clang -E` and strips
all spaces and newlines; it is an external collaborator, so these functions
take its output (`keymap_text`) as their input. -/

/-- The inner member loop of `populate_enums` (lines 246-263), walking the
comma-separated members of one enum body.  `none` models the `ValueError`
of `define, new_index = define.split('=')` when a member contains two `=`.
A member of the form `X=SAFE_RANGE` stops the walk of this enum block
(`break`); a member without `=` is numbered with the running index. -/
def processEnumMembers :
    List String → Dict String Nat → Nat → Option (Dict String Nat)
  | [], replacements, _ => some replacements
  | define :: rest, replacements, index =>
    if pyContains define "=" then
      match pySplit define "=" with
      | [d, ni] =>
        if pyStrip ni = "SAFE_RANGE" then some replacements
        else
          let index1 :=
            if !pyIsdigit ni then
              match dget? replacements ni with
              | some v => v
              | none => index
            else pyToNat ni
          processEnumMembers rest (dinsert replacements d index1) (index1 + 1)
      | _ => none
    else
      processEnumMembers rest (dinsert replacements define index) (index + 1)

/-- The enum→number substitution table built by `populate_enums`
(lines 241-263): one pass per `enum_re` match, each starting at index 0. -/
def enumReplacements (keymap_text : String) : Option (Dict String Nat) :=
  (scanAll enumMatch keymap_text.data).foldlM
    (fun replacements enumTxt =>
      let enumBody := ((splitSub enumTxt "\x7b".data).map String.mk).getD 1 ""
      processEnumMembers (pySplit enumBody ",") replacements 0)
    []

/-- `populate_enums(keymap_text, keymap)` (lines 236-269): build the
replacement table from `keymap_text`, then textually substitute each member
with its number in `keymap`, in insertion order. -/
def populate_enums (keymap_text keymap : String) : Option String := do
  let replacements ← enumReplacements keymap_text
  return replacements.foldl
    (fun km p => pyReplace km p.1 (Nat.repr p.2)) keymap

/-- `extract_layouts(keymap_text, ...)` (lines 272-281):
`keymap_re.findall(keymap_text)[0]`, or `None` when nothing matches. -/
def extract_layouts (keymap_text : String) : Option String :=
  ((scanAll keymapReMatch keymap_text.data).map String.mk).head?

/-- The layout-macro name selection of `extract_keymap` (lines 296-299):
`layout_macro_re` first, falling back to `keymap_macro_re`, else `''`. -/
def extractLayoutMacroName (keymap_text : String) : String :=
  match scanAll layoutMacroMatch keymap_text.data with
  | g :: _ => String.mk g
  | [] =>
    match scanAll keymapMacroMatch keymap_text.data with
    | g :: _ => String.mk g
    | [] => ""

/-- The layer loop of `extract_keymap` (lines 304-312), over the
`layers_re` matches.  `none` models the `IndexError` of
`layer.split('(', 1)[1]` when the text after the first `=` has no `(`. -/
def buildLayers :
    List (List Char) → Nat → Dict Nat (List String) →
    Option (Dict Nat (List String))
  | [], _, layers => some layers
  | m :: rest, layer_index, layers =>
    let (num0, after) := pyPartition (String.mk m) "="
    match pySplit1 after "(" with
    | [_, lay1] =>
      let lay := (pyRsplit1 lay1 ")").headD ""
      let numStr := pyReplace (pyReplace num0 "[" "") "]" ""
      if numStr = "" || !pyIsdigit numStr then
        buildLayers rest (layer_index + 1)
          (dinsert layers layer_index (pySplit lay ","))
      else
        buildLayers rest layer_index
          (dinsert layers (pyToNat numStr) (pySplit lay ","))
    | _ => none

/-- Largest declared layer number: `sorted(layers.keys())[-1]` (line 317). -/
def maxKey (layers : Dict Nat (List String)) : Nat :=
  layers.foldl (fun m p => Nat.max m p.1) 0

/-- Materialisation of the dense layer list (lines 315-319): positions `0`
to `max` hold `layers.get(i)`; an empty dict yields an empty list. -/
def layersToList (layers : Dict Nat (List String)) :
    List (Option (List String)) :=
  if layers.isEmpty then []
  else (List.range (maxKey layers + 1)).map (fun i => dget? layers i)

/-- The layer dictionary computed by `extract_keymap` for a keymap text
that contains a keymaps array (isolate array, substitute enums, walk
`layers_re` matches). -/
def keymapLayersDict (keymap_text : String) :
    Option (Dict Nat (List String)) :=
  match extract_layouts keymap_text with
  | none => none
  | some keymap0 =>
    if keymap0 = "" then none
    else
      match populate_enums keymap_text keymap0 with
      | none => none
      | some keymap => buildLayers (scanAll layersMatch keymap.data) 0 []

/-- `extract_keymap` (lines 284-321) on preprocessed keymap text: returns
`('', [])` when no keymaps array is found (falsy `keymap`), otherwise the
layout macro name and the dense layer list. -/
def extract_keymap (keymap_text : String) :
    Option (String × List (Option (List String))) :=
  match extract_layouts keymap_text with
  | none => some ("", [])
  | some keymap0 =>
    if keymap0 = "" then some ("", [])
    else
      match keymapLayersDict keymap_text with
      | none => none
      | some layers => some (extractLayoutMacroName keymap_text, layersToList layers)

/-! ## `find_layouts` (lines 324-379) -/

/-- One key entry produced by `default_key` (line 217-226): a copy of the
shared `default_key_entry` template `{'x', 'y', 'w'}` plus, for a truthy
(non-empty) token, the `label` field. -/
structure KeyEntry : Type where
  x : Int
  y : Int
  w : Nat
  label : Option String
deriving DecidableEq

/-- The per-macro record `{'key_count': ..., 'layout': ...}` (lines 370-373). -/
structure LayoutRecord : Type where
  key_count : Nat
  layout : List KeyEntry
deriving DecidableEq

/-- The line scan of `find_layouts` (lines 334-350): a two-state machine
accumulating non-function `#define` aliases and the discovered multi-line
macro bodies, in order. -/
def scanLayoutLines (aliases : Dict String String) (writing : Bool)
    (current : List String) (discovered : List String) :
    List String → Dict String String × List String
  | [] => (aliases, discovered)
  | line :: rest =>
    let st :=
      if !writing then
        if pyContains line "#define" && pyContains line "(" &&
            (pyContains line "LAYOUT" || pyContains line "KEYMAP") then
          (aliases, true)
        else if pyContains line "#define" then
          match pySplitN (pyStrip line) " " 2 with
          | [_, name, text] => (dinsert aliases name text, false)
          | _ => (aliases, false)
        else (aliases, false)
      else (aliases, true)
    if st.2 then
      let current1 := current ++ [pyStrip line ++ "\n"]
      if pyContains line ")" then
        scanLayoutLines st.1 false [] (discovered ++ [pyJoin "" current1]) rest
      else
        scanLayoutLines st.1 true current1 discovered rest
    else
      scanLayoutLines st.1 false current discovered rest

/-- The key entries of one macro row (the `default_key(key)` calls of line
369): `x` is pre-incremented per key, `label` is added only for a truthy
(non-empty) token. -/
def buildRowKeys (y : Int) : Int → List String → List KeyEntry
  | _, [] => []
  | x, key :: rest =>
    { x := x + 1, y := y, w := 1,
      label := if key ≠ "" then some key else none } :: buildRowKeys y (x + 1) rest

/-- The row loop of lines 365-369: `default_key_entry['y']` starts at `-1`
and is incremented per row; `default_key_entry['x']` is reset to `-1` per
row. -/
def buildRows : Int → List String → List KeyEntry
  | _, [] => []
  | y, row :: rest =>
    buildRowKeys (y + 1) (-1) (pySplit row ",") ++ buildRows (y + 1) rest

/-- Post-processing of one discovered macro body (lines 352-373): clean up
the text, split off the macro name, keep only `KEYMAP*`/`LAYOUT*` macros,
and parse the argument list into naive x/y data.  `none` models the
`ValueError` of `macro_name, keymap = keymap.split('(', 1)` when the body
has no `(` (unreachable: bodies are only queued after a line containing
`(`). -/
def processKeymap (parsed : Dict String LayoutRecord) (keymap0 : String) :
    Option (Dict String LayoutRecord) :=
  let keymap1 := pyReplace (pyReplace (pyReplace (pyReplace keymap0
    "\\" "") " " "") "\t" "") "#define" ""
  match pySplit1 keymap1 "(" with
  | [macro_name, keymap2] =>
    let keymap3 := (pySplit1 keymap2 ")").headD ""
    if !(pyStartswith macro_name "KEYMAP" || pyStartswith macro_name "LAYOUT") then
      some parsed
    else
      let parsed_keymap := buildRows (-1) (pySplit (pyStrip keymap3) ",\n")
      some (dinsert parsed macro_name
        { key_count := parsed_keymap.length, layout := parsed_keymap })
  | _ => none

/-- One iteration of the alias-resolution loop (lines 375-377): an alias
`p.1 → p.2` whose replacement text `p.2` is a key of `parsed` is bound to
that key's current record. -/
def applyAliasStep (parsed : Dict String LayoutRecord) (p : String × String) :
    Dict String LayoutRecord :=
  match dget? parsed p.2 with
  | some r => dinsert parsed p.1 r
  | none => parsed

/-- The alias-resolution loop of lines 375-377 over all recorded aliases,
in insertion order. -/
def applyAliases (aliases : Dict String String)
    (parsed : Dict String LayoutRecord) : Dict String LayoutRecord :=
  aliases.foldl applyAliasStep parsed

/-- `find_layouts(file)` (lines 324-379) on the lines of the header file. -/
def find_layouts (lines : List String) : Option (Dict String LayoutRecord) := do
  let st := scanLayoutLines [] false [] [] lines
  let parsed ← st.2.foldlM processKeymap []
  return applyAliases st.1 parsed

/-! ## The layouts merge of `merge_info_json` (lines 421-434) -/

/-- The exact `log_error` message of lines 426-432 (with the `'Error: '`
prefix added by `log_error`); `%(layout)s` appears twice in the format
string. -/
def cardinalityMismatchMessage (keyboard layout : String)
    (info_len keymap_len : Nat) : String :=
  "Error: " ++ keyboard ++ ": " ++ layout ++
  ": Number of elements in info.json does not match! info.json:" ++
  Nat.repr info_len ++ " != " ++ layout ++ ":" ++ Nat.repr keymap_len

/-- The `'layouts'` loop of `merge_info_json` (lines 421-434): layouts
without a macro-derived counterpart are skipped; a length mismatch logs an
error and leaves the record alone; matching lengths overwrite only the
`'layout'` data of the record.  Returns the updated layouts dict and the
appended error-log messages. -/
def merge_info_json_layouts (keyboard_folder : String)
    (keyboard_layouts : Dict String LayoutRecord)
    (json_layouts : Dict String (List KeyEntry)) :
    Dict String LayoutRecord × List String :=
  json_layouts.foldl
    (fun st p =>
      match dget? st.1 p.1 with
      | none => st
      | some r =>
        if r.layout.length ≠ p.2.length then
          (st.1, st.2 ++ [cardinalityMismatchMessage keyboard_folder p.1
            p.2.length r.layout.length])
        else
          (dinsert st.1 p.1 { r with layout := p.2 }, st.2))
    (keyboard_layouts, [])

/-! ## `build_usb_entry` (lines 528-549) -/

/-- The USB registry `VENDOR_ID → PRODUCT_ID → keyboard → usb_entry`
(Python dicts keyed by the stored values). -/
abbrev UsbList := Dict CVal (Dict CVal (Dict String (Dict String CVal)))

instance : DecidableEq (Dict String (Dict String CVal)) := inferInstance

instance : DecidableEq (Dict CVal (Dict String (Dict String CVal))) := inferInstance

instance : DecidableEq UsbList := inferInstance

/-- One iteration of the key loop of `build_usb_entry` (lines 532-538) on
the state `(keyboard_info, config_h, usb_entry)`.  For the three ID keys
the config value is normalised **in place** in `config_h`
(`config_h[key] = '0x' + config_h[key].upper().replace('0X', '')`); `none`
models the `AttributeError` of calling `.upper()` on a non-string value. -/
def usbKeyStep
    (st : Dict String CVal × Dict String CVal × Dict String CVal)
    (key : String) :
    Option (Dict String CVal × Dict String CVal × Dict String CVal) :=
  let kbinfo := st.1
  let cfg := st.2.1
  let entry := st.2.2
  match dget? cfg key with
  | none => some st
  | some v =>
    if key = "VENDOR_ID" || key = "PRODUCT_ID" || key = "DEVICE_VER" then
      match v with
      | CVal.str s =>
        let s2 := "0x" ++ pyReplace (pyUpper s) "0X" ""
        some (dinsert kbinfo (pyLower key) (CVal.str s2),
          dinsert cfg key (CVal.str s2),
          dinsert entry (pyLower key) (CVal.str s2))
      | _ => none
    else
      some (dinsert kbinfo (pyLower key) v, cfg, dinsert entry (pyLower key) v)

/-- The key loop of `build_usb_entry` over the five config keys. -/
def usbKeyLoop
    (st : Dict String CVal × Dict String CVal × Dict String CVal) :
    List String →
    Option (Dict String CVal × Dict String CVal × Dict String CVal)
  | [] => some st
  | key :: rest =>
    match usbKeyStep st key with
    | none => none
    | some st1 => usbKeyLoop st1 rest

/-- `build_usb_entry(keyboard_info, config_h, usb_list)` (lines 528-549).
Returns `(keyboard_info, config_h, usb_list, usb_entry)` after the call;
`none` models the `KeyError` on a missing `'keyboard_folder'` and the
`AttributeError` inside the key loop. -/
def build_usb_entry (keyboard_info config_h : Dict String CVal)
    (usb_list : UsbList) :
    Option (Dict String CVal × Dict String CVal × UsbList × Dict String CVal) :=
  match dget? keyboard_info "keyboard_folder" with
  | none => none
  | some folder =>
    match usbKeyLoop (keyboard_info, config_h, [("keyboard", folder)])
        ["VENDOR_ID", "PRODUCT_ID", "DEVICE_VER", "MANUFACTURER",
         "DESCRIPTION"] with
    | none => none
    | some st =>
      let kbinfo := st.1
      let cfg := st.2.1
      let entry := st.2.2
      let vendor_id := (dget? entry "vendor_id").getD (CVal.str "0xFEED")
      let entry := dinsert entry "vendor_id" vendor_id
      let product_id := (dget? entry "product_id").getD (CVal.str "0x0000")
      let entry := dinsert entry "product_id" product_id
      let usb_list :=
        if dmem usb_list vendor_id then usb_list
        else dinsert usb_list vendor_id []
      let inner := (dget? usb_list vendor_id).getD []
      let usb_list :=
        if dmem inner product_id then usb_list
        else dinsert usb_list vendor_id (dinsert inner product_id [])
      some (kbinfo, cfg, usb_list, entry)

/-! ## Processor classification (lines 29-30, 461-506, 572-579) -/

/-- `ARM_PROCESSORS` (line 29), as the values `rules_mk.get('MCU')` is
compared against. -/
def ARM_PROCESSORS : List (Option String) :=
  [some "cortex-m0", some "cortex-m0plus", some "cortex-m3", some "cortex-m4",
   some "MKL26Z64", some "MK20DX128", some "MK20DX256", some "STM32F042",
   some "STM32F072", some "STM32F103", some "STM32F303"]

/-- `AVR_PROCESSORS` (line 30); the trailing `None` makes an absent MCU key
a member of the AVR allow-list. -/
def AVR_PROCESSORS : List (Option String) :=
  [some "at90usb1286", some "at90usb646", some "atmega16u2",
   some "atmega328p", some "atmega32a", some "atmega32u2",
   some "atmega32u4", none]

/-- `arm_processor_rules(keyboard_info, rules_mk)` (lines 461-479). -/
def arm_processor_rules (keyboard_info : Dict String CVal)
    (rules_mk : Dict String String) : Dict String CVal :=
  let kb := dinsert keyboard_info "processor_type" (CVal.str "arm")
  let bootloader :=
    if dmem rules_mk "BOOTLOADER" then (dget? rules_mk "BOOTLOADER").getD ""
    else "unknown"
  let kb := dinsert kb "bootloader" (CVal.str bootloader)
  let processor :=
    if dmem rules_mk "MCU" then (dget? rules_mk "MCU").getD "" else "unknown"
  let kb := dinsert kb "processor" (CVal.str processor)
  let kb :=
    if bootloader = "unknown" then
      if pyContains processor "STM32" then
        dinsert kb "bootloader" (CVal.str "stm32-dfu")
      else if dget? kb "manufacturer" = some (CVal.str "Input Club") then
        dinsert kb "bootloader" (CVal.str "kiibohd-dfu")
      else kb
    else kb
  let kb := dinsert kb "protocol" (CVal.str "ChibiOS")
  if pyContains processor "STM32" then
    dinsert kb "platform" (CVal.str "STM32")
  else if dmem rules_mk "MCU_SERIES" then
    dinsert kb "platform" (CVal.str ((dget? rules_mk "MCU_SERIES").getD ""))
  else if dmem rules_mk "ARM_ATSAM" then
    dinsert (dinsert kb "platform" (CVal.str "ARM_ATSAM"))
      "protocol" (CVal.str "ATSAM")
  else kb

/-- `avr_processor_rules(keyboard_info, rules_mk)` (lines 482-496). -/
def avr_processor_rules (keyboard_info : Dict String CVal)
    (rules_mk : Dict String String) : Dict String CVal :=
  let kb := dinsert keyboard_info "processor_type" (CVal.str "avr")
  let kb := dinsert kb "bootloader" (CVal.str
    (if dmem rules_mk "BOOTLOADER" then (dget? rules_mk "BOOTLOADER").getD ""
     else "atmel-dfu"))
  let kb := dinsert kb "platform" (CVal.str
    (if dmem rules_mk "ARCH" then (dget? rules_mk "ARCH").getD ""
     else "unknown"))
  let kb := dinsert kb "processor" (CVal.str
    (if dmem rules_mk "MCU" then (dget? rules_mk "MCU").getD ""
     else "unknown"))
  if dget? rules_mk "MCU" ∈ [some "atmega32a", some "atmega328p"] then
    dinsert kb "protocol" (CVal.str "V-USB")
  else
    dinsert kb "protocol" (CVal.str "LUFA")

/-- `unknown_processor_rules(keyboard_info, rules_mk)` (lines 499-506). -/
def unknown_processor_rules (keyboard_info : Dict String CVal)
    (_rules_mk : Dict String String) : Dict String CVal :=
  let kb := dinsert keyboard_info "bootloader" (CVal.str "unknown")
  let kb := dinsert kb "platform" (CVal.str "unknown")
  let kb := dinsert kb "processor" (CVal.str "unknown")
  let kb := dinsert kb "processor_type" (CVal.str "unknown")
  dinsert kb "protocol" (CVal.str "unknown")

/-- The platform-specific dispatch of `process_keyboard` (lines 571-579):
look up `rules_mk.get('MCU')` in the two allow-lists; no match logs a
warning and sets everything to `'unknown'`.  Returns the updated
keyboard_info and the appended warning messages. -/
def processorClassification (keyboard : String)
    (keyboard_info : Dict String CVal) (rules_mk : Dict String String) :
    Dict String CVal × List String :=
  let mcu := dget? rules_mk "MCU"
  if mcu ∈ ARM_PROCESSORS then
    (arm_processor_rules keyboard_info rules_mk, [])
  else if mcu ∈ AVR_PROCESSORS then
    (avr_processor_rules keyboard_info rules_mk, [])
  else
    (unknown_processor_rules keyboard_info rules_mk,
     ["Warning: " ++ keyboard ++ ": Unknown MCU: " ++
      (match mcu with | some s => s | none => "None")])

/-- `parse_config_h(keyboard)` (lines 118-128). -/
def parse_config_h (fs : FS) (keyboard : String) :
    Option (Dict String CVal) := do
  let rules_mk ← parse_rules_mk fs keyboard
  let config_h := parse_config_h_file fs
    ("qmk_firmware/keyboards/" ++ keyboard ++ "/config.h") []
  if dmem rules_mk "DEFAULT_FOLDER" then
    let df := (dget? rules_mk "DEFAULT_FOLDER").getD ""
    pure (parse_config_h_file fs
      ("qmk_firmware/keyboards/" ++ df ++ "/" ++ df ++ "/config.h") config_h)
  else
    pure config_h

/-! ## Dictionary lemmas -/

theorem dget?_map_set {κ α : Type} [DecidableEq κ] (d : Dict κ α) (k : κ) (v : α) :
    dget? (d.map fun p => if p.1 = k then (k, v) else p) k =
      (dget? d k).map (fun _ => v) := by
  induction d with
  | nil => rfl
  | cons p rest ih =>
    by_cases h : p.1 = k
    · simp [dget?, h]
    · simp [dget?, h, ih]

theorem dget?_append_single {κ α : Type} [DecidableEq κ] (d : Dict κ α)
    (k : κ) (v : α) (h : dget? d k = none) : dget? (d ++ [(k, v)]) k = some v := by
  induction d with
  | nil => simp [dget?]
  | cons p rest ih =>
    simp only [dget?] at h ⊢
    rcases Decidable.em (p.1 = k) with h1 | h1
    · simp [h1] at h
    · simp only [List.cons_append, dget?, h1, if_false]
      exact ih (by simpa [h1] using h)

theorem dget?_dinsert_self {κ α : Type} [DecidableEq κ] (d : Dict κ α)
    (k : κ) (v : α) : dget? (dinsert d k v) k = some v := by
  unfold dinsert
  by_cases hm : dmem d k
  · obtain ⟨a, ha⟩ := Option.isSome_iff_exists.mp hm
    simp [hm, dget?_map_set, ha]
  · have hn : dget? d k = none := by
      cases hq : dget? d k with
      | none => rfl
      | some a => exact absurd (by simp [dmem, hq]) hm
    simp [hm, dget?_append_single _ _ _ hn]

theorem dget?_map_set_ne {κ α : Type} [DecidableEq κ] (d : Dict κ α)
    (k k1 : κ) (v : α) (h : k1 ≠ k) :
    dget? (d.map fun p => if p.1 = k then (k, v) else p) k1 = dget? d k1 := by
  induction d with
  | nil => rfl
  | cons p rest ih =>
    by_cases h2 : p.1 = k
    · have : ¬(k = k1) := fun he => h he.symm
      simp [dget?, h2, this, ih]
    · simp [dget?, h2, ih]

theorem dget?_append_single_ne {κ α : Type} [DecidableEq κ] (d : Dict κ α)
    (k k1 : κ) (v : α) (h : k1 ≠ k) : dget? (d ++ [(k, v)]) k1 = dget? d k1 := by
  induction d with
  | nil =>
    have : ¬(k = k1) := fun he => h he.symm
    simp [dget?, this]
  | cons p rest ih =>
    simp only [List.cons_append, dget?]
    rw [show (rest.append [(k, v)]) = rest ++ [(k, v)] from rfl, ih]

theorem dget?_dinsert_ne {κ α : Type} [DecidableEq κ] (d : Dict κ α)
    (k k1 : κ) (v : α) (h : k1 ≠ k) : dget? (dinsert d k v) k1 = dget? d k1 := by
  unfold dinsert
  by_cases hm : dmem d k
  · simp [hm, dget?_map_set_ne _ _ _ _ h]
  · simp [hm, dget?_append_single_ne _ _ _ _ h]

/-- A string containing `=` is non-empty (used to discharge the
`if line = ''` guard of `processRulesLine` from a containment fact). -/
theorem pyContains_eq_ne_empty (s : String) (h : pyContains s "=" = true) :
    s ≠ "" := by
  intro he
  rw [he] at h
  exact absurd h (by decide)

/-! ## Claim theorems -/

/-- C1 counterexample.  The claim states that `#undef` on a *valued* key
removes it and `#undef` on a *flag* key leaves the `False` tombstone.  The
code does the opposite: after `#define A 1` + `#undef A` the key `A` is
still present (mapped to `False`), and after `#define B` + `#undef B` the
key `B` is gone entirely. -/
theorem C1_counterexample :
    parse_config_h_lines ["#define A 1", "#undef A"] [] = [("A", CVal.fls)] ∧
    ¬(dget? (parse_config_h_lines ["#define A 1", "#undef A"] []) "A" = none) ∧
    parse_config_h_lines ["#define B", "#undef B"] [] = [] ∧
    ¬(dget? (parse_config_h_lines ["#define B", "#undef B"] []) "B" =
        some CVal.fls) := by
  decide

/-- C1 (amended): for every `#undef KEY` line processed by
`parse_config_h_file`, a key previously defined as a flag (`True`) is
removed from the map entirely, while a key previously defined with a value
(or already `False`) is set to the explicit-false tombstone `False`; an
absent key is left absent.  So it is the *flag* keys whose undefinition is
collapsed to "never seen", and the *valued* keys that keep the tombstone
(the converse of the claim as stated). -/
theorem C1_undef_amended (cfg : Dict String CVal) (line k : String)
    (htok : configLineTokens line = ["#undef", k]) :
    (dget? cfg k = some CVal.tru → processConfigLine cfg line = ddel cfg k) ∧
    (∀ v, dget? cfg k = some (CVal.str v) →
      processConfigLine cfg line = dinsert cfg k CVal.fls) ∧
    (dget? cfg k = some CVal.fls →
      processConfigLine cfg line = dinsert cfg k CVal.fls) ∧
    (dget? cfg k = none → processConfigLine cfg line = cfg) := by
  refine ⟨?_, ?_, ?_, ?_⟩
  · intro h
    simp [processConfigLine, htok, dmem, h]
  · intro v h
    simp [processConfigLine, htok, dmem, h]
  · intro h
    simp [processConfigLine, htok, dmem, h]
  · intro h
    simp [processConfigLine, htok, dmem, h]

/-- Witness for `C1_undef_amended` at concrete inputs. -/
theorem C1_undef_amended_witness :
    processConfigLine [("A", CVal.tru)] "#undef A" = ddel [("A", CVal.tru)] "A" ∧
    processConfigLine [("B", CVal.str "1")] "#undef B" =
      dinsert [("B", CVal.str "1")] "B" CVal.fls :=
  ⟨(C1_undef_amended [("A", CVal.tru)] "#undef A" "A" (by decide)).1 (by decide),
   (C1_undef_amended [("B", CVal.str "1")] "#undef B" "B" (by decide)).2.1 "1"
     (by decide)⟩

/-- C3: when the keyboard's own rules.mk parses to a dict `r1` containing a
`DEFAULT_FOLDER` key, `parse_rules_mk` re-parses the default folder's
rules.mk file *into `r1` itself* (first conjunct), and every line whose
comment-trimmed text is a plain `KEY = VALUE` assignment overwrites the
current binding of that key unconditionally, so a key assigned with plain
`=` in both files ends up with the default-folder file's value (second
conjunct). -/
theorem C3_default_folder_overwrites :
    (∀ (fs : FS) (kb df : String) (r1 : Dict String String),
      parse_rules_mk_file fs (rulesMkPath kb) [] = some r1 →
      dget? r1 "DEFAULT_FOLDER" = some df →
      parse_rules_mk fs kb =
        parse_rules_mk_file fs (rulesMkDefaultFolderPath df) r1) ∧
    (∀ (r : Dict String String) (line k0 v0 : String),
      pyContains (rulesLineTrim line) "=" = true →
      pyContains (rulesLineTrim line) "+=" = false →
      pySplit1 (rulesLineTrim line) "=" = [k0, v0] →
      processRulesLine r line = some (dinsert r (pyStrip k0) (pyStrip v0)) ∧
      dget? (dinsert r (pyStrip k0) (pyStrip v0)) (pyStrip k0) =
        some (pyStrip v0)) := by
  constructor
  · intro fs kb df r1 h1 h2
    simp [parse_rules_mk, h1, dmem, h2]
  · intro r line k0 v0 h1 h2 h3
    have hne : rulesLineTrim line ≠ "" := pyContains_eq_ne_empty _ h1
    refine ⟨?_, dget?_dinsert_self _ _ _⟩
    simp [processRulesLine, hne, h1, h2, h3]

/-- Witness for `C3_default_folder_overwrites` at a concrete file system
and a concrete pair of conflicting `MCU =` assignments. -/
theorem C3_default_folder_overwrites_witness :
    parse_rules_mk
        (fun p =>
          if p = "qmk_firmware/keyboards/kb/rules.mk" then
            some "DEFAULT_FOLDER = df\nMCU = atmega32u4"
          else if p = "qmk_firmware/keyboards/df/df/rules.mk" then
            some "MCU = STM32F303"
          else none)
        "kb" =
      parse_rules_mk_file
        (fun p =>
          if p = "qmk_firmware/keyboards/kb/rules.mk" then
            some "DEFAULT_FOLDER = df\nMCU = atmega32u4"
          else if p = "qmk_firmware/keyboards/df/df/rules.mk" then
            some "MCU = STM32F303"
          else none)
        (rulesMkDefaultFolderPath "df")
        [("DEFAULT_FOLDER", "df"), ("MCU", "atmega32u4")] ∧
    processRulesLine [("DEFAULT_FOLDER", "df"), ("MCU", "atmega32u4")]
        "MCU = STM32F303" =
      some (dinsert [("DEFAULT_FOLDER", "df"), ("MCU", "atmega32u4")]
        (pyStrip "MCU ") (pyStrip " STM32F303")) :=
  ⟨C3_default_folder_overwrites.1 _ "kb" "df" _ (by decide) (by decide),
   (C3_default_folder_overwrites.2 [("DEFAULT_FOLDER", "df"), ("MCU", "atmega32u4")]
     "MCU = STM32F303" "MCU " " STM32F303" (by decide) (by decide) (by decide)).1⟩

/-- C7: for a rules.mk line whose comment-trimmed text is of the form
`KEY += VALUE`, the result equals that of a plain `KEY = VALUE` line
whenever `KEY` is not yet present; when `KEY` is present with value `old`,
the `+=` line appends a single space and the new value
(`old ++ " " ++ value`) while the plain `=` line overwrites with the
value. -/
theorem C7_plus_equals_accumulates (line lineP k0 v0 k0p v0p : String)
    (ha1 : pyContains (rulesLineTrim line) "=" = true)
    (ha2 : pyContains (rulesLineTrim line) "+=" = true)
    (ha3 : pySplit (rulesLineTrim line) "+=" = [k0, v0])
    (hb1 : pyContains (rulesLineTrim lineP) "=" = true)
    (hb2 : pyContains (rulesLineTrim lineP) "+=" = false)
    (hb3 : pySplit1 (rulesLineTrim lineP) "=" = [k0p, v0p])
    (hk : pyStrip k0p = pyStrip k0) (hv : pyStrip v0p = pyStrip v0) :
    (∀ r : Dict String String, dmem r (pyStrip k0) = false →
      processRulesLine r line = processRulesLine r lineP) ∧
    (∀ (r : Dict String String) (old : String),
      dget? r (pyStrip k0) = some old →
      processRulesLine r line =
        some (dinsert r (pyStrip k0) (old ++ " " ++ pyStrip v0)) ∧
      processRulesLine r lineP = some (dinsert r (pyStrip k0) (pyStrip v0))) := by
  have hneA : rulesLineTrim line ≠ "" := pyContains_eq_ne_empty _ ha1
  have hneB : rulesLineTrim lineP ≠ "" := pyContains_eq_ne_empty _ hb1
  constructor
  · intro r hmem
    simp [processRulesLine, hneA, hneB, ha1, ha2, ha3, hb1, hb2, hb3, hmem,
      hk, hv]
  · intro r old hget
    have hmem : dmem r (pyStrip k0) = true := by simp [dmem, hget]
    constructor
    · simp [processRulesLine, hneA, ha1, ha2, ha3, hmem, hget]
    · simp [processRulesLine, hneB, hb1, hb2, hb3, hk, hv]

/-- Witness for `C7_plus_equals_accumulates` on `FOO += bar` versus
`FOO = bar`, against an absent key and against `FOO = baz`. -/
theorem C7_plus_equals_accumulates_witness :
    processRulesLine [] "FOO += bar" = processRulesLine [] "FOO = bar" ∧
    (processRulesLine [("FOO", "baz")] "FOO += bar" =
      some (dinsert [("FOO", "baz")] (pyStrip "FOO ") ("baz" ++ " " ++ pyStrip " bar")) ∧
     processRulesLine [("FOO", "baz")] "FOO = bar" =
      some (dinsert [("FOO", "baz")] (pyStrip "FOO ") (pyStrip " bar"))) :=
  ⟨(C7_plus_equals_accumulates "FOO += bar" "FOO = bar" "FOO " " bar" "FOO " " bar"
      (by decide) (by decide) (by decide) (by decide) (by decide) (by decide)
      (by decide) (by decide)).1 [] (by decide),
   (C7_plus_equals_accumulates "FOO += bar" "FOO = bar" "FOO " " bar" "FOO " " bar"
      (by decide) (by decide) (by decide) (by decide) (by decide) (by decide)
      (by decide) (by decide)).2 [("FOO", "baz")] "baz" (by decide)⟩

/-- Dense-list lemma for `layersToList`: on a non-empty layer dict the
result has length `maxKey + 1` and position `i` holds the dict's entry for
layer `i` (or `none`). -/
theorem layersToList_spec (d : Dict Nat (List String)) (hd : d ≠ []) :
    (layersToList d).length = maxKey d + 1 ∧
    ∀ i, i < maxKey d + 1 → (layersToList d)[i]? = some (dget? d i) := by
  have hne : d.isEmpty = false := by
    cases d with
    | nil => exact absurd rfl hd
    | cons p rest => rfl
  constructor
  · simp [layersToList, hne]
  · intro i hi
    simp [layersToList, hne, List.getElem?_map, List.getElem?_range hi]

/-- C2 counterexample.  The claim says enum members after a bare
`SAFE_RANGE` member are assigned no number and are never substituted in
the keymap text.  In the code the `break` fires only when a member's
*assigned value* is `SAFE_RANGE` (`X=SAFE_RANGE`); a bare `SAFE_RANGE`
member is itself numbered (12 here) and `KC_C` after it is numbered 13 and
substituted, so the keymap `[0]=LAYOUT(KC_C)` resolves to layer `['13']`
rather than `['KC_C']`. -/
theorem C2_counterexample :
    enumReplacements
        "enum\x7bKC_A=10,KC_B,SAFE_RANGE,KC_C\x7d;constuint16_tPROGMEMkeymaps[][1][2]=\x7b[0]=LAYOUT(KC_C)\x7d;" =
      some [("KC_A", 10), ("KC_B", 11), ("SAFE_RANGE", 12), ("KC_C", 13)] ∧
    extract_keymap
        "enum\x7bKC_A=10,KC_B,SAFE_RANGE,KC_C\x7d;constuint16_tPROGMEMkeymaps[][1][2]=\x7b[0]=LAYOUT(KC_C)\x7d;" =
      some ("LAYOUT", [some ["13"]]) ∧
    ¬(extract_keymap
        "enum\x7bKC_A=10,KC_B,SAFE_RANGE,KC_C\x7d;constuint16_tPROGMEMkeymaps[][1][2]=\x7b[0]=LAYOUT(KC_C)\x7d;" =
      some ("LAYOUT", [some ["KC_C"]])) := by
  decide

/-- C2 (amended): the enum walk of `populate_enums` halts for the rest of
a block only when a member has the assignment form `X=SAFE_RANGE` (the
`break` tests the assigned *value*); a member without `=` — including a
bare `SAFE_RANGE` — is numbered with the running index and the walk
continues, so members after a bare `SAFE_RANGE` are numbered and
substituted.  The claim's concrete example nevertheless yields layer
`['10','11']`, because `KC_C` does not occur in the keymap text. -/
theorem C2_safe_range_amended :
    extract_keymap
        "enum\x7bKC_A=10,KC_B,SAFE_RANGE,KC_C\x7d;constuint16_tPROGMEMkeymaps[][1][2]=\x7b[0]=LAYOUT(KC_A,KC_B)\x7d;" =
      some ("LAYOUT", [some ["10", "11"]]) ∧
    (∀ (member d ni : String) (rest : List String)
        (replacements : Dict String Nat) (index : Nat),
      pyContains member "=" = true →
      pySplit member "=" = [d, ni] →
      pyStrip ni = "SAFE_RANGE" →
      processEnumMembers (member :: rest) replacements index =
        some replacements) ∧
    (∀ (member : String) (rest : List String)
        (replacements : Dict String Nat) (index : Nat),
      pyContains member "=" = false →
      processEnumMembers (member :: rest) replacements index =
        processEnumMembers rest (dinsert replacements member index)
          (index + 1)) := by
  refine ⟨by decide, ?_, ?_⟩
  · intro member d ni rest replacements index h1 h2 h3
    simp [processEnumMembers, h1, h2, h3]
  · intro member rest replacements index h1
    simp [processEnumMembers, h1]

/-- Witness for `C2_safe_range_amended` at concrete inputs: the
assignment-form sentinel `NEW=SAFE_RANGE` halts the block, and a bare
`SAFE_RANGE` member is numbered with the running index. -/
theorem C2_safe_range_amended_witness :
    processEnumMembers ["NEW=SAFE_RANGE", "KC_X"] [("A", 5)] 6 =
      some [("A", 5)] ∧
    processEnumMembers ["SAFE_RANGE", "KC_X"] [] 12 =
      processEnumMembers ["KC_X"] (dinsert [] "SAFE_RANGE" 12) 13 :=
  ⟨(C2_safe_range_amended.2.1 "NEW=SAFE_RANGE" "NEW" "SAFE_RANGE" ["KC_X"]
      [("A", 5)] 6 (by decide) (by decide) (by decide)),
   (C2_safe_range_amended.2.2 "SAFE_RANGE" ["KC_X"] [] 12 (by decide))⟩

/-- C5: `find_layouts` on a header containing
`#define LAYOUT_foo(k1,k2,k3) {k1,k2,k3}` returns exactly the one-macro
mapping with `key_count` 3 and, for each token, `x` its 0-based position
in its row, `y` the 0-based row index, `label` the literal token text
(each entry also carries the constant `w := 1` of the
`default_key_entry` template). -/
theorem C5_find_layouts_example :
    find_layouts ["#define LAYOUT_foo(k1,k2,k3) \x7bk1,k2,k3\x7d"] =
      some [("LAYOUT_foo",
        { key_count := 3,
          layout := [
            { x := 0, y := 0, w := 1, label := some "k1" },
            { x := 1, y := 0, w := 1, label := some "k2" },
            { x := 2, y := 0, w := 1, label := some "k3" }] })] := by
  decide

/-- C8: whenever `extract_keymap` finds at least one layer, the returned
layer list is dense over the declared-layer dictionary: its length is
`max(declared index) + 1` and position `i` holds exactly the dict's entry
for layer `i` (the declared token list, or `none` for an undeclared
index). -/
theorem C8_dense_layer_list (text lm : String)
    (ll : List (Option (List String)))
    (h : extract_keymap text = some (lm, ll)) (hne : ll ≠ []) :
    ∃ d, keymapLayersDict text = some d ∧
      ll.length = maxKey d + 1 ∧
      ∀ i, i < ll.length → ll[i]? = some (dget? d i) := by
  cases hel : extract_layouts text with
  | none =>
    simp only [extract_keymap, hel] at h
    rw [Option.some.injEq, Prod.mk.injEq] at h
    exact absurd h.2.symm hne
  | some keymap0 =>
    simp only [extract_keymap, hel] at h
    by_cases h0 : keymap0 = ""
    · rw [if_pos h0] at h
      rw [Option.some.injEq, Prod.mk.injEq] at h
      exact absurd h.2.symm hne
    · rw [if_neg h0] at h
      cases hd : keymapLayersDict text with
      | none =>
        simp only [hd] at h
        exact absurd h (by simp)
      | some d =>
        simp only [hd] at h
        rw [Option.some.injEq, Prod.mk.injEq] at h
        have h2 : layersToList d = ll := h.2
        have hdne : d ≠ [] := by
          intro hnil
          rw [hnil] at h2
          exact hne (h2.symm.trans (by decide))
        obtain ⟨hlen, hget⟩ := layersToList_spec d hdne
        exact ⟨d, rfl, by rw [← h2]; exact hlen,
          fun i hi => by
            rw [← h2] at hi ⊢
            exact hget i (by rwa [hlen] at hi)⟩

/-- Witness for `C8_dense_layer_list`: declaring only layers 0 and 2
yields a 3-element list whose middle entry is `none`. -/
theorem C8_dense_layer_list_witness :
    ∃ d, keymapLayersDict
        "constuint16_tPROGMEMkeymaps[][1][1]=\x7b[0]=LAYOUT(KC_A),[2]=LAYOUT(KC_B)\x7d;" =
        some d ∧
      ([some ["KC_A"], none, some ["KC_B"]] :
        List (Option (List String))).length = maxKey d + 1 ∧
      ∀ i, i < ([some ["KC_A"], none, some ["KC_B"]] :
          List (Option (List String))).length →
        ([some ["KC_A"], none, some ["KC_B"]] :
          List (Option (List String)))[i]? = some (dget? d i) :=
  C8_dense_layer_list
    "constuint16_tPROGMEMkeymaps[][1][1]=\x7b[0]=LAYOUT(KC_A),[2]=LAYOUT(KC_B)\x7d;"
    "LAYOUT" [some ["KC_A"], none, some ["KC_B"]] (by decide) (by decide)

/-- An alias step with a name different from `k` leaves the binding of `k`
alone. -/
theorem applyAliasStep_ne (m : Dict String LayoutRecord) (p : String × String)
    (k : String) (hk : p.1 ≠ k) :
    dget? (applyAliasStep m p) k = dget? m k := by
  unfold applyAliasStep
  cases dget? m p.2 with
  | none => rfl
  | some r2 => exact dget?_dinsert_ne _ _ _ _ (Ne.symm hk)

/-- The alias-resolution loop never changes the binding of a key that is
not an alias name. -/
theorem applyAliases_stable (al : Dict String String)
    (m : Dict String LayoutRecord) (k : String) (r : LayoutRecord)
    (hk : ∀ p ∈ al, p.1 ≠ k) (h : dget? m k = some r) :
    dget? (applyAliases al m) k = some r := by
  induction al generalizing m with
  | nil => exact h
  | cons p rest ih =>
    show dget? (applyAliases rest (applyAliasStep m p)) k = some r
    refine ih _ (fun q hq => hk q (List.mem_cons_of_mem _ hq)) ?_
    rw [applyAliasStep_ne _ _ _ (hk p (List.mem_cons_self _ _))]
    exact h

/-- Through the alias-resolution loop, an alias `a → t` whose target `t`
holds record `r` and is itself never an alias name (alias names are unique
— they come from a Python dict) ends up bound to `r`. -/
theorem applyAliases_binds (al : Dict String String)
    (m : Dict String LayoutRecord) (a t : String) (r : LayoutRecord)
    (hmem : (a, t) ∈ al) (hnd : (al.map Prod.fst).Nodup)
    (hnt : ∀ p ∈ al, p.1 ≠ t) (h : dget? m t = some r) :
    dget? (applyAliases al m) a = some r := by
  induction al generalizing m with
  | nil => cases hmem
  | cons p rest ih =>
    show dget? (applyAliases rest (applyAliasStep m p)) a = some r
    simp only [List.map_cons, List.nodup_cons] at hnd
    rcases List.mem_cons.mp hmem with heq | hmem2
    · obtain rfl : p = (a, t) := heq.symm
      have hstep : applyAliasStep m (a, t) = dinsert m a r := by
        unfold applyAliasStep
        simp [h]
      rw [hstep]
      refine applyAliases_stable rest _ a r (fun q hq he => ?_)
        (dget?_dinsert_self _ _ _)
      have hx : q.1 ∈ List.map Prod.fst rest := List.mem_map_of_mem Prod.fst hq
      exact hnd.1 (he ▸ hx)
    · have hx : a ∈ List.map Prod.fst rest :=
        List.mem_map_of_mem Prod.fst hmem2
      have hpa : p.1 ≠ a := fun he => hnd.1 (by rw [he]; exact hx)
      refine ih _ hmem2 hnd.2 (fun q hq => hnt q (List.mem_cons_of_mem _ hq)) ?_
      rw [applyAliasStep_ne _ _ _ (hnt p (List.mem_cons_self _ _))]
      exact h

/-- C6 counterexample.  The claim quantifies over every non-function
`#define` alias whose replacement text names a discovered macro, but the
alias loop (lines 375-377) binds an alias to the record its target holds
*at that moment*, and processing a later alias can rebind a discovered
macro name.  On a header with aliases `LAYOUT_a → LAYOUT_t` and
`LAYOUT_t → LAYOUT_x` and function macros `LAYOUT_t(k1)` (1 key) and
`LAYOUT_x(k1,k2)` (2 keys), the loop first binds `LAYOUT_a` to
`LAYOUT_t`'s 1-key record and then rebinds `LAYOUT_t` to `LAYOUT_x`'s
2-key record, so `layouts['LAYOUT_a'] ≠ layouts['LAYOUT_t']` even though
`LAYOUT_a` is a non-function alias naming the discovered macro
`LAYOUT_t`. -/
theorem C6_counterexample :
    (find_layouts
        ["#define LAYOUT_a LAYOUT_t", "#define LAYOUT_t LAYOUT_x",
         "#define LAYOUT_t(k1) \x7bk1\x7d",
         "#define LAYOUT_x(k1,k2) \x7bk1,k2\x7d"]).map
      (fun mf => (dget? mf "LAYOUT_a", dget? mf "LAYOUT_t",
        dget? mf "LAYOUT_a" == dget? mf "LAYOUT_t")) =
    some
      (some { key_count := 1,
              layout := [{ x := 0, y := 0, w := 1, label := some "k1" }] },
       some { key_count := 2,
              layout := [{ x := 0, y := 0, w := 1, label := some "k1" },
                         { x := 1, y := 0, w := 1, label := some "k2" }] },
       false) := by
  decide

/-- C6 (amended): the alias loop binds each alias to the record its target
holds at the moment the alias is processed, and a later alias can rebind a
discovered macro name, so the claimed equality needs two side conditions:
the alias names are distinct (always true — they are the keys of one
Python dict) and the target macro name `t` is itself never an alias name.
Under those conditions, every non-function `#define` alias `a → t` whose
replacement text names a parsed layout macro is bound, in the returned
mapping, to the very same `LayoutRecord` value as that macro: both lookups
return the identical record. -/
theorem C6_alias_same_record (lines : List String) (a t : String)
    (m : Dict String LayoutRecord) (r : LayoutRecord)
    (hpk : (scanLayoutLines [] false [] [] lines).2.foldlM processKeymap [] =
      some m)
    (hmem : (a, t) ∈ (scanLayoutLines [] false [] [] lines).1)
    (hnd : ((scanLayoutLines [] false [] [] lines).1.map Prod.fst).Nodup)
    (hnt : ∀ p ∈ (scanLayoutLines [] false [] [] lines).1, p.1 ≠ t)
    (hget : dget? m t = some r) :
    ∃ mf, find_layouts lines = some mf ∧
      dget? mf a = some r ∧ dget? mf t = some r := by
  have hfl : find_layouts lines =
      some (applyAliases (scanLayoutLines [] false [] [] lines).1 m) := by
    simp [find_layouts, hpk]
  exact ⟨_, hfl, applyAliases_binds _ _ _ _ _ hmem hnd hnt hget,
    applyAliases_stable _ _ _ _ hnt hget⟩

/-- Witness for `C6_alias_same_record`: a header defining `LAYOUT_bar` as
`LAYOUT_foo` yields `layouts['LAYOUT_bar'] == layouts['LAYOUT_foo']`. -/
theorem C6_alias_same_record_witness :
    ∃ mf, find_layouts
        ["#define LAYOUT_bar LAYOUT_foo",
         "#define LAYOUT_foo(k1,k2) \x7bk1,k2\x7d"] = some mf ∧
      dget? mf "LAYOUT_bar" = some
        { key_count := 2,
          layout := [{ x := 0, y := 0, w := 1, label := some "k1" },
                     { x := 1, y := 0, w := 1, label := some "k2" }] } ∧
      dget? mf "LAYOUT_foo" = some
        { key_count := 2,
          layout := [{ x := 0, y := 0, w := 1, label := some "k1" },
                     { x := 1, y := 0, w := 1, label := some "k2" }] } :=
  C6_alias_same_record
    ["#define LAYOUT_bar LAYOUT_foo", "#define LAYOUT_foo(k1,k2) \x7bk1,k2\x7d"]
    "LAYOUT_bar" "LAYOUT_foo"
    [("LAYOUT_foo",
      { key_count := 2,
        layout := [{ x := 0, y := 0, w := 1, label := some "k1" },
                   { x := 1, y := 0, w := 1, label := some "k2" }] })]
    { key_count := 2,
      layout := [{ x := 0, y := 0, w := 1, label := some "k1" },
                 { x := 1, y := 0, w := 1, label := some "k2" }] }
    (by decide) (by decide) (by decide) (by decide) (by decide)

/-- C9: given a manifest layout named like an existing macro-derived
layout, the layouts merge of `merge_info_json` logs exactly one
cardinality-mismatch error (carrying the keyboard folder, the layout name
and both counts) and leaves the layouts dict unchanged when the key counts
differ; when the counts agree it overwrites the macro-derived layout data
with the manifest's and logs nothing. -/
theorem C9_manifest_cardinality (folder name : String)
    (kbl : Dict String LayoutRecord) (jl : List KeyEntry) (r : LayoutRecord)
    (hget : dget? kbl name = some r) :
    (r.layout.length ≠ jl.length →
      merge_info_json_layouts folder kbl [(name, jl)] =
        (kbl, [cardinalityMismatchMessage folder name jl.length
          r.layout.length])) ∧
    (r.layout.length = jl.length →
      merge_info_json_layouts folder kbl [(name, jl)] =
        (dinsert kbl name { r with layout := jl }, [])) := by
  constructor <;> intro h <;> simp [merge_info_json_layouts, hget, h]

/-- Witness for `C9_manifest_cardinality`: an 8-key manifest layout
against a 6-key macro-derived layout logs the one mismatch message and
leaves the record alone; a matching 6-key manifest layout overwrites. -/
theorem C9_manifest_cardinality_witness :
    merge_info_json_layouts "clueboard"
        [("LAYOUT",
          { key_count := 6,
            layout := List.replicate 6 ({ x := 0, y := 0, w := 1, label := none } : KeyEntry) })]
        [("LAYOUT", List.replicate 8 ({ x := 1, y := 1, w := 1, label := none } : KeyEntry))] =
      ([("LAYOUT",
          { key_count := 6,
            layout := List.replicate 6 ({ x := 0, y := 0, w := 1, label := none } : KeyEntry) })],
       [cardinalityMismatchMessage "clueboard" "LAYOUT" 8 6]) ∧
    merge_info_json_layouts "clueboard"
        [("LAYOUT",
          { key_count := 6,
            layout := List.replicate 6 ({ x := 0, y := 0, w := 1, label := none } : KeyEntry) })]
        [("LAYOUT", List.replicate 6 ({ x := 1, y := 1, w := 1, label := none } : KeyEntry))] =
      (dinsert
        [("LAYOUT",
          { key_count := 6,
            layout := List.replicate 6 ({ x := 0, y := 0, w := 1, label := none } : KeyEntry) })]
        "LAYOUT"
        { key_count := 6,
          layout := List.replicate 6 ({ x := 1, y := 1, w := 1, label := none } : KeyEntry) },
       []) :=
  ⟨(C9_manifest_cardinality "clueboard" "LAYOUT"
      [("LAYOUT",
        { key_count := 6,
          layout := List.replicate 6 ({ x := 0, y := 0, w := 1, label := none } : KeyEntry) })]
      (List.replicate 8 ({ x := 1, y := 1, w := 1, label := none } : KeyEntry))
      { key_count := 6,
        layout := List.replicate 6 ({ x := 0, y := 0, w := 1, label := none } : KeyEntry) }
      (by decide)).1 (by decide),
   (C9_manifest_cardinality "clueboard" "LAYOUT"
      [("LAYOUT",
        { key_count := 6,
          layout := List.replicate 6 ({ x := 0, y := 0, w := 1, label := none } : KeyEntry) })]
      (List.replicate 6 ({ x := 1, y := 1, w := 1, label := none } : KeyEntry))
      { key_count := 6,
        layout := List.replicate 6 ({ x := 0, y := 0, w := 1, label := none } : KeyEntry) }
      (by decide)).2 (by decide)⟩

/-- C10: a keyboard whose rules.mk declares no MCU key is classified as an
AVR board, because the absent-MCU value (`None`) is a member of the
`AVR_PROCESSORS` allow-list: `processor_type` is `'avr'`, `processor` is
`'unknown'`, `protocol` is `'LUFA'`, and (with no BOOTLOADER key declared)
`bootloader` defaults to `'atmel-dfu'`; no unknown-MCU warning is
logged. -/
theorem C10_absent_mcu_is_avr (keyboard : String) (kb : Dict String CVal)
    (rules_mk : Dict String String)
    (hmcu : dget? rules_mk "MCU" = none)
    (hboot : dget? rules_mk "BOOTLOADER" = none) :
    (processorClassification keyboard kb rules_mk).2 = [] ∧
    dget? (processorClassification keyboard kb rules_mk).1 "processor_type" =
      some (CVal.str "avr") ∧
    dget? (processorClassification keyboard kb rules_mk).1 "processor" =
      some (CVal.str "unknown") ∧
    dget? (processorClassification keyboard kb rules_mk).1 "protocol" =
      some (CVal.str "LUFA") ∧
    dget? (processorClassification keyboard kb rules_mk).1 "bootloader" =
      some (CVal.str "atmel-dfu") := by
  have harm : ¬((none : Option String) ∈ ARM_PROCESSORS) := by decide
  have havr : (none : Option String) ∈ AVR_PROCESSORS := by decide
  have hcls : processorClassification keyboard kb rules_mk =
      (avr_processor_rules kb rules_mk, []) := by
    simp only [processorClassification, hmcu]
    rw [if_neg harm, if_pos havr]
  rw [hcls]
  have havrr : avr_processor_rules kb rules_mk =
      dinsert (dinsert (dinsert (dinsert (dinsert kb
        "processor_type" (CVal.str "avr"))
        "bootloader" (CVal.str "atmel-dfu"))
        "platform" (CVal.str
          (if dmem rules_mk "ARCH" then (dget? rules_mk "ARCH").getD ""
           else "unknown")))
        "processor" (CVal.str "unknown"))
        "protocol" (CVal.str "LUFA") := by
    simp [avr_processor_rules, dmem, hmcu, hboot]
  rw [havrr]
  refine ⟨rfl, ?_, ?_, ?_, ?_⟩
  · rw [dget?_dinsert_ne _ _ _ _ (by decide), dget?_dinsert_ne _ _ _ _ (by decide),
      dget?_dinsert_ne _ _ _ _ (by decide), dget?_dinsert_ne _ _ _ _ (by decide),
      dget?_dinsert_self]
  · rw [dget?_dinsert_ne _ _ _ _ (by decide), dget?_dinsert_self]
  · rw [dget?_dinsert_self]
  · rw [dget?_dinsert_ne _ _ _ _ (by decide), dget?_dinsert_ne _ _ _ _ (by decide),
      dget?_dinsert_ne _ _ _ _ (by decide), dget?_dinsert_self]

/-- Witness for `C10_absent_mcu_is_avr` on a rules.mk with only an ARCH
key. -/
theorem C10_absent_mcu_is_avr_witness :
    (processorClassification "kb0" [] [("ARCH", "AVR8")]).2 = [] ∧
    dget? (processorClassification "kb0" [] [("ARCH", "AVR8")]).1
      "processor_type" = some (CVal.str "avr") ∧
    dget? (processorClassification "kb0" [] [("ARCH", "AVR8")]).1
      "processor" = some (CVal.str "unknown") ∧
    dget? (processorClassification "kb0" [] [("ARCH", "AVR8")]).1
      "protocol" = some (CVal.str "LUFA") ∧
    dget? (processorClassification "kb0" [] [("ARCH", "AVR8")]).1
      "bootloader" = some (CVal.str "atmel-dfu") :=
  C10_absent_mcu_is_avr "kb0" [] [("ARCH", "AVR8")] (by decide) (by decide)

/-- Effect of one `build_usb_entry` key iteration on the config dict:
other keys are untouched; an absent key stays absent; one of the three ID
keys holding a string is normalised in place; a non-ID key leaves the
config dict completely unchanged. -/
theorem usbKeyStep_cfg
    (st st1 : Dict String CVal × Dict String CVal × Dict String CVal)
    (key : String) (h : usbKeyStep st key = some st1) :
    (∀ k, k ≠ key → dget? st1.2.1 k = dget? st.2.1 k) ∧
    (dget? st.2.1 key = none → dget? st1.2.1 key = none) ∧
    ((key = "VENDOR_ID" ∨ key = "PRODUCT_ID" ∨ key = "DEVICE_VER") →
      ∀ s, dget? st.2.1 key = some (CVal.str s) →
        dget? st1.2.1 key =
          some (CVal.str ("0x" ++ pyReplace (pyUpper s) "0X" ""))) ∧
    (¬(key = "VENDOR_ID" ∨ key = "PRODUCT_ID" ∨ key = "DEVICE_VER") →
      st1.2.1 = st.2.1) := by
  unfold usbKeyStep at h
  cases hv : dget? st.2.1 key with
  | none =>
    simp only [hv] at h
    obtain rfl := Option.some.inj h
    refine ⟨fun k _ => rfl, fun _ => hv, fun _ s hs => ?_, fun _ => rfl⟩
    exact Option.noConfusion hs
  | some v =>
    simp only [hv] at h
    split at h
    case isTrue hcond =>
      cases v with
      | str s =>
        obtain rfl := Option.some.inj h
        refine ⟨fun k hk => dget?_dinsert_ne _ _ _ _ hk, ?_, ?_, ?_⟩
        · intro hn
          exact Option.noConfusion hn
        · intro _ s2 hs
          obtain rfl := CVal.str.inj (Option.some.inj hs)
          exact dget?_dinsert_self _ _ _
        · intro hnc
          exact absurd (or_assoc.mp (by simpa using hcond)) hnc
      | tru => exact Option.noConfusion h
      | fls => exact Option.noConfusion h
    case isFalse hcond =>
      obtain rfl := Option.some.inj h
      refine ⟨fun k _ => rfl, ?_, ?_, fun _ => rfl⟩
      · intro hn
        exact Option.noConfusion hn
      · intro hc s2 hs
        rcases hc with rfl | rfl | rfl <;> exact absurd hcond (by decide)

/-- The key loop of `build_usb_entry` preserves every config entry whose
key either differs from all looped keys or is never one of the three ID
keys. -/
theorem usbKeyLoop_cfg_pres (keys : List String)
    (st out : Dict String CVal × Dict String CVal × Dict String CVal)
    (k : String) (h : usbKeyLoop st keys = some out)
    (hk : ∀ key ∈ keys, k ≠ key ∨
      (key ≠ "VENDOR_ID" ∧ key ≠ "PRODUCT_ID" ∧ key ≠ "DEVICE_VER")) :
    dget? out.2.1 k = dget? st.2.1 k := by
  induction keys generalizing st with
  | nil =>
    simp only [usbKeyLoop] at h
    obtain rfl := Option.some.inj h
    rfl
  | cons key rest ih =>
    simp only [usbKeyLoop] at h
    cases hs : usbKeyStep st key with
    | none => simp only [hs] at h; exact Option.noConfusion h
    | some st1 =>
      simp only [hs] at h
      rw [ih st1 h (fun key2 hm => hk key2 (List.mem_cons_of_mem _ hm))]
      rcases hk key (List.mem_cons_self _ _) with hne | hni
      · exact (usbKeyStep_cfg st st1 key hs).1 k hne
      · rw [(usbKeyStep_cfg st st1 key hs).2.2.2
          (by rintro (rfl | rfl | rfl) <;> simp at hni)]

/-- Through the key loop, one of the three ID keys holding a string value
ends up normalised (provided the looped keys are distinct). -/
theorem usbKeyLoop_cfg_str (keys : List String)
    (st out : Dict String CVal × Dict String CVal × Dict String CVal)
    (k s : String) (h : usbKeyLoop st keys = some out)
    (hthree : k = "VENDOR_ID" ∨ k = "PRODUCT_ID" ∨ k = "DEVICE_VER")
    (hmem : k ∈ keys) (hnodup : keys.Nodup)
    (hs : dget? st.2.1 k = some (CVal.str s)) :
    dget? out.2.1 k = some (CVal.str ("0x" ++ pyReplace (pyUpper s) "0X" "")) := by
  induction keys generalizing st with
  | nil => cases hmem
  | cons key rest ih =>
    simp only [usbKeyLoop] at h
    cases hstep : usbKeyStep st key with
    | none => simp only [hstep] at h; exact Option.noConfusion h
    | some st1 =>
      simp only [hstep] at h
      rcases List.mem_cons.mp hmem with rfl | hmem2
      · have hval := (usbKeyStep_cfg st st1 k hstep).2.2.1 hthree s hs
        have hpres := usbKeyLoop_cfg_pres rest st1 out k h
          (fun key2 hm => Or.inl (fun he =>
            (List.nodup_cons.mp hnodup).1 (he ▸ hm)))
        rw [hpres, hval]
      · have hkk : k ≠ key := fun he =>
          (List.nodup_cons.mp hnodup).1 (he ▸ hmem2)
        have hstep1 := (usbKeyStep_cfg st st1 key hstep).1 k hkk
        exact ih st1 h hmem2 (List.nodup_cons.mp hnodup).2
          (by rw [hstep1]; exact hs)

/-- Through the key loop, a key absent from the config dict stays absent. -/
theorem usbKeyLoop_cfg_none (keys : List String)
    (st out : Dict String CVal × Dict String CVal × Dict String CVal)
    (k : String) (h : usbKeyLoop st keys = some out)
    (hs : dget? st.2.1 k = none) : dget? out.2.1 k = none := by
  induction keys generalizing st with
  | nil =>
    simp only [usbKeyLoop] at h
    obtain rfl := Option.some.inj h
    exact hs
  | cons key rest ih =>
    simp only [usbKeyLoop] at h
    cases hstep : usbKeyStep st key with
    | none => simp only [hstep] at h; exact Option.noConfusion h
    | some st1 =>
      simp only [hstep] at h
      by_cases hkk : k = key
      · subst hkk
        exact ih st1 h ((usbKeyStep_cfg st st1 k hstep).2.1 hs)
      · exact ih st1 h
          (((usbKeyStep_cfg st st1 key hstep).1 k hkk).trans hs)

/-- C4 counterexample.  The claim states that the config map returned by
`parse_config_h` is never mutated afterwards, and in particular that every
key's value is unchanged across `build_usb_entry`.  But `build_usb_entry`
normalises `config_h['VENDOR_ID']` in place: from `'feed'` it becomes
`'0xFEED'`. -/
theorem C4_counterexample :
    (build_usb_entry [("keyboard_folder", CVal.str "kb0")]
        [("VENDOR_ID", CVal.str "feed")] []).map (fun o => o.2.1) =
      some [("VENDOR_ID", CVal.str "0xFEED")] ∧
    ¬((build_usb_entry [("keyboard_folder", CVal.str "kb0")]
        [("VENDOR_ID", CVal.str "feed")] []).map (fun o => o.2.1) =
      some [("VENDOR_ID", CVal.str "feed")]) := by
  decide

/-- C4 (amended): `build_usb_entry` mutates the config map it is given,
but only at the three USB ID keys: for every other key the value after the
call equals the value before; a `VENDOR_ID`/`PRODUCT_ID`/`DEVICE_VER`
entry holding a string `s` is overwritten in place with the normalised
`'0x' + s.upper().replace('0X','')`, and one of those keys that is absent
stays absent. -/
theorem C4_build_usb_entry_amended (kbinfo cfg : Dict String CVal)
    (usb : UsbList)
    (out : Dict String CVal × Dict String CVal × UsbList × Dict String CVal)
    (h : build_usb_entry kbinfo cfg usb = some out) :
    (∀ k, k ≠ "VENDOR_ID" → k ≠ "PRODUCT_ID" → k ≠ "DEVICE_VER" →
      dget? out.2.1 k = dget? cfg k) ∧
    (∀ k s, (k = "VENDOR_ID" ∨ k = "PRODUCT_ID" ∨ k = "DEVICE_VER") →
      dget? cfg k = some (CVal.str s) →
      dget? out.2.1 k =
        some (CVal.str ("0x" ++ pyReplace (pyUpper s) "0X" ""))) ∧
    (∀ k, (k = "VENDOR_ID" ∨ k = "PRODUCT_ID" ∨ k = "DEVICE_VER") →
      dget? cfg k = none → dget? out.2.1 k = none) := by
  unfold build_usb_entry at h
  cases hf : dget? kbinfo "keyboard_folder" with
  | none =>
    simp only [hf] at h
    exact Option.noConfusion h
  | some folder =>
    simp only [hf] at h
    cases hl : usbKeyLoop (kbinfo, cfg, [("keyboard", folder)])
        ["VENDOR_ID", "PRODUCT_ID", "DEVICE_VER", "MANUFACTURER",
         "DESCRIPTION"] with
    | none =>
      simp only [hl] at h
      exact Option.noConfusion h
    | some st =>
      simp only [hl] at h
      obtain rfl := Option.some.inj h
      refine ⟨fun k h1 h2 h3 => ?_, fun k s hth hs => ?_, fun k hth hs => ?_⟩
      · exact usbKeyLoop_cfg_pres _ _ _ _ hl
          (by
            intro key hm
            simp only [List.mem_cons, List.not_mem_nil, or_false] at hm
            rcases hm with rfl | rfl | rfl | rfl | rfl
            · exact Or.inl h1
            · exact Or.inl h2
            · exact Or.inl h3
            · exact Or.inr (by refine ⟨?_, ?_, ?_⟩ <;> decide)
            · exact Or.inr (by refine ⟨?_, ?_, ?_⟩ <;> decide))
      · exact usbKeyLoop_cfg_str _ _ _ _ _ hl hth
          (by rcases hth with rfl | rfl | rfl <;> decide) (by decide) hs
      · exact usbKeyLoop_cfg_none _ _ _ _ hl hs

/-- Witness for `C4_build_usb_entry_amended` on a config holding a
`VENDOR_ID` and a `MANUFACTURER`: the manufacturer entry is preserved, the
vendor ID is normalised, and the absent `PRODUCT_ID` stays absent. -/
theorem C4_build_usb_entry_amended_witness :
    dget? ([("VENDOR_ID", CVal.str "0xFEED"), ("MANUFACTURER", CVal.str "Clue")] :
        Dict String CVal) "MANUFACTURER" =
      dget? ([("VENDOR_ID", CVal.str "feed"), ("MANUFACTURER", CVal.str "Clue")] :
        Dict String CVal) "MANUFACTURER" ∧
    dget? ([("VENDOR_ID", CVal.str "0xFEED"), ("MANUFACTURER", CVal.str "Clue")] :
        Dict String CVal) "VENDOR_ID" =
      some (CVal.str ("0x" ++ pyReplace (pyUpper "feed") "0X" "")) ∧
    dget? ([("VENDOR_ID", CVal.str "0xFEED"), ("MANUFACTURER", CVal.str "Clue")] :
        Dict String CVal) "PRODUCT_ID" = none := by
  have h := C4_build_usb_entry_amended
    [("keyboard_folder", CVal.str "kb0")]
    [("VENDOR_ID", CVal.str "feed"), ("MANUFACTURER", CVal.str "Clue")]
    []
    ([("keyboard_folder", CVal.str "kb0"), ("vendor_id", CVal.str "0xFEED"),
      ("manufacturer", CVal.str "Clue")],
     [("VENDOR_ID", CVal.str "0xFEED"), ("MANUFACTURER", CVal.str "Clue")],
     [(CVal.str "0xFEED", [(CVal.str "0x0000", [])])],
     [("keyboard", CVal.str "kb0"), ("vendor_id", CVal.str "0xFEED"),
      ("manufacturer", CVal.str "Clue"), ("product_id", CVal.str "0x0000")])
    (by decide)
  exact ⟨h.1 "MANUFACTURER" (by decide) (by decide) (by decide),
    h.2.1 "VENDOR_ID" "feed" (Or.inl rfl) (by decide),
    h.2.2 "PRODUCT_ID" (Or.inr (Or.inl rfl)) (by decide)⟩

end Qmk
